import Mathlib

/-!
Shallow embedding of the stamp-extraction and geocoding logic of the
passport controller (`src/controllers/passport.ts`), together with proofs
about it.  Strings are modelled as `List Char` (Unicode scalar values);
JavaScript regular-expression constructs are modelled by explicit scanning
functions whose semantics mirror the concrete patterns that appear in the
source.  Floating-point confidence constants are modelled as rationals.
-/

namespace Workship

/-! ## Character classes (ECMAScript `\w`, `\s`, `[A-Z]`, `\d`) -/

/-- ECMAScript whitespace class `\s`:
TAB LF VT FF CR SP NBSP U+1680 U+2000..U+200A U+2028 U+2029 U+202F U+205F
U+3000 U+FEFF. -/
def isWsJS (c : Char) : Bool :=
  let n := c.toNat
  (n == 9) || (n == 10) || (n == 11) || (n == 12) || (n == 13) || (n == 32) ||
  (n == 160) || (n == 5760) || (decide (8192 ≤ n) && decide (n ≤ 8202)) ||
  (n == 8232) || (n == 8233) || (n == 8239) || (n == 8287) || (n == 12288) ||
  (n == 65279)

/-- ECMAScript word class `\w` = `[A-Za-z0-9_]`. -/
def isWordJS (c : Char) : Bool :=
  let n := c.toNat
  (decide (65 ≤ n) && decide (n ≤ 90)) || (decide (97 ≤ n) && decide (n ≤ 122)) ||
  (decide (48 ≤ n) && decide (n ≤ 57)) || (n == 95)

/-- Uppercase ASCII letter, the class `[A-Z]`. -/
def isAZ (c : Char) : Bool :=
  decide (65 ≤ c.toNat) && decide (c.toNat ≤ 90)

/-- ASCII digit, the class `\d`. -/
def isDigitJS (c : Char) : Bool :=
  decide (48 ≤ c.toNat) && decide (c.toNat ≤ 57)

/-- Model of `String.prototype.toUpperCase`, restricted to the ASCII mapping
(`a`-`z` ↦ `A`-`Z`); all other scalars are left unchanged.  (Locale-free
Unicode case mapping outside ASCII is not modelled; every such character is
removed by the `\w`-filter of `normalizeText` in any case.) -/
def toUpperJS (c : Char) : Char :=
  if 97 ≤ c.toNat ∧ c.toNat ≤ 122 then Char.ofNat (c.toNat - 32) else c

/-! ## normalizeText (passport.ts lines 312-318)

```js
text.toUpperCase().replace(/[^\w\s,.-]/g, '').replace(/\s+/g, ' ').trim()
``` -/

/-- Characters kept by the strip step `replace(/[^\w\s,.-]/g, '')`. -/
def keepChar (c : Char) : Bool :=
  isWordJS c || isWsJS c || (c == ',') || (c == '.') || (c == '-')

/-- The step `replace` of every whitespace run by one space: every maximal run of whitespace becomes one
space.  The flag records whether we are inside a whitespace run whose
replacement space has already been emitted. -/
def collapseWsGo : Bool → List Char → List Char
  | _, [] => []
  | inRun, c :: cs =>
    if isWsJS c then
      if inRun then collapseWsGo true cs else ' ' :: collapseWsGo true cs
    else
      c :: collapseWsGo false cs

/-- Model of `String.prototype.trim` (removes leading and trailing `\s`). -/
def trimJS (l : List Char) : List Char :=
  (((l.dropWhile isWsJS).reverse.dropWhile isWsJS)).reverse

/-- Function `normalizeText` from the source: upper-case, strip everything outside
`[\w\s,.-]`, collapse whitespace runs to single spaces, trim. -/
def normalizeText (s : List Char) : List Char :=
  trimJS (collapseWsGo false ((s.map toUpperJS).filter keepChar))

/-! ## Substring containment (`String.prototype.includes`) -/

/-- Does `s` start with the pattern `pat`? -/
def startsWithSeq : List Char → List Char → Bool
  | _, [] => true
  | [], _ :: _ => false
  | c :: cs, p :: ps => (c == p) && startsWithSeq cs ps

/-- Model of `s.includes(pat)`: `pat` occurs contiguously somewhere in `s`. -/
def strContains : List Char → List Char → Bool
  | [], pat => pat.isEmpty
  | c :: tl, pat => startsWithSeq (c :: tl) pat || strContains tl pat

/-! ## Basic character-level lemmas -/

theorem char_toNat_ofNat (m : Nat) (h : m ≤ 55000) : (Char.ofNat m).toNat = m := by
  have hv : m.isValidChar := by left; omega
  unfold Char.ofNat
  rw [dif_pos hv]
  unfold Char.ofNatAux Char.toNat
  simp [UInt32.toNat]

/-- The characters `normalizeText` can emit: uppercase ASCII letters,
digits, underscore, space, comma, period, hyphen. -/
def normOutChar (c : Char) : Bool :=
  let n := c.toNat
  (decide (65 ≤ n) && decide (n ≤ 90)) || (decide (48 ≤ n) && decide (n ≤ 57)) ||
  (n == 95) || (n == 32) || (n == 44) || (n == 46) || (n == 45)

theorem toUpperJS_not_lower (c : Char) :
    ¬(97 ≤ (toUpperJS c).toNat ∧ (toUpperJS c).toNat ≤ 122) := by
  unfold toUpperJS
  by_cases h : 97 ≤ c.toNat ∧ c.toNat ≤ 122
  · rw [if_pos h, char_toNat_ofNat (c.toNat - 32) (by omega)]
    omega
  · rw [if_neg h]
    omega

theorem normOutChar_fix (c : Char) (h : normOutChar c = true) : toUpperJS c = c := by
  unfold toUpperJS
  rw [if_neg]
  unfold normOutChar at h
  simp only [Bool.or_eq_true, Bool.and_eq_true, decide_eq_true_eq, beq_iff_eq] at h
  omega

theorem char_eq_of_toNat_eq (c d : Char) (h : c.toNat = d.toNat) : c = d := by
  apply Char.le_antisymm
  · show c.val ≤ d.val
    exact Nat.le_of_eq h
  · show d.val ≤ c.val
    exact Nat.le_of_eq h.symm

theorem char_eq_iff_toNat (c d : Char) : c = d ↔ c.toNat = d.toNat :=
  ⟨fun e => by rw [e], char_eq_of_toNat_eq c d⟩

theorem normOutChar_keep (c : Char) (h : normOutChar c = true) : keepChar c = true := by
  unfold keepChar isWordJS isWsJS
  unfold normOutChar at h
  have e1 : (',').toNat = 44 := rfl
  have e2 : ('.').toNat = 46 := rfl
  have e3 : ('-').toNat = 45 := rfl
  simp only [Bool.or_eq_true, Bool.and_eq_true, decide_eq_true_eq, beq_iff_eq,
    char_eq_iff_toNat] at h ⊢
  omega

theorem normOutChar_ws (c : Char) (h : normOutChar c = true) (hw : isWsJS c = true) :
    c = ' ' := by
  unfold normOutChar at h
  unfold isWsJS at hw
  have e1 : (' ').toNat = 32 := rfl
  simp only [Bool.or_eq_true, Bool.and_eq_true, decide_eq_true_eq, beq_iff_eq] at h hw
  rw [char_eq_iff_toNat]
  omega

/-! ## Invariants of `normalizeText` -/

/-- Adjacent characters are never both whitespace. -/
def noWsPair (a b : Char) : Prop := ¬(isWsJS a = true ∧ isWsJS b = true)

theorem mem_collapseWsGo (l : List Char) :
    ∀ (b : Bool) (c : Char), c ∈ collapseWsGo b l →
      c = ' ' ∨ (c ∈ l ∧ isWsJS c = false) := by
  induction l with
  | nil => intro b c h; simp [collapseWsGo] at h
  | cons x xs ih =>
    intro b c h
    unfold collapseWsGo at h
    by_cases hx : isWsJS x = true
    · rw [if_pos hx] at h
      cases b with
      | true =>
        rcases ih true c h with h1 | h1
        · exact Or.inl h1
        · exact Or.inr ⟨List.mem_cons_of_mem x h1.1, h1.2⟩
      | false =>
        rw [if_neg Bool.false_ne_true] at h
        simp only [List.mem_cons] at h
        rcases h with h | h
        · exact Or.inl h
        · rcases ih true c h with h1 | h1
          · exact Or.inl h1
          · exact Or.inr ⟨List.mem_cons_of_mem x h1.1, h1.2⟩
    · rw [if_neg hx] at h
      simp only [List.mem_cons] at h
      rcases h with h | h
      · subst h
        exact Or.inr ⟨List.mem_cons_self c xs, by simpa using hx⟩
      · rcases ih false c h with h1 | h1
        · exact Or.inl h1
        · exact Or.inr ⟨List.mem_cons_of_mem x h1.1, h1.2⟩

theorem collapseWsGo_true_head (l : List Char) :
    ∀ c, (collapseWsGo true l).head? = some c → isWsJS c = false := by
  induction l with
  | nil => intro c h; simp [collapseWsGo] at h
  | cons x xs ih =>
    intro c h
    unfold collapseWsGo at h
    by_cases hx : isWsJS x = true
    · rw [if_pos hx] at h
      exact ih c h
    · rw [if_neg hx] at h
      simp only [List.head?_cons, Option.some.injEq] at h
      subst h
      simpa using hx

theorem chain'_collapseWsGo (l : List Char) :
    ∀ b, List.Chain' noWsPair (collapseWsGo b l) := by
  induction l with
  | nil => intro b; simp [collapseWsGo]
  | cons x xs ih =>
    intro b
    unfold collapseWsGo
    by_cases hx : isWsJS x = true
    · rw [if_pos hx]
      cases b with
      | true => exact ih true
      | false =>
        rw [if_neg Bool.false_ne_true]
        rw [List.chain'_cons']
        refine ⟨fun y hy => ?_, ih true⟩
        intro hcon
        have := collapseWsGo_true_head xs y hy
        rw [this] at hcon
        exact Bool.false_ne_true hcon.2
    · rw [if_neg hx]
      rw [List.chain'_cons']
      refine ⟨fun y hy => ?_, ih false⟩
      intro hcon
      exact hx hcon.1

theorem mem_trimJS (l : List Char) (c : Char) (h : c ∈ trimJS l) : c ∈ l := by
  unfold trimJS at h
  rw [List.mem_reverse] at h
  have h2 := (List.dropWhile_suffix (l := (l.dropWhile isWsJS).reverse) isWsJS).mem h
  rw [List.mem_reverse] at h2
  exact (List.dropWhile_suffix isWsJS).mem h2

theorem noWsPair_flip : flip noWsPair = noWsPair := by
  funext a b
  simp only [flip, noWsPair, eq_iff_iff]
  constructor
  · intro h hc; exact h ⟨hc.2, hc.1⟩
  · intro h hc; exact h ⟨hc.2, hc.1⟩

theorem chain'_trimJS (l : List Char) (h : List.Chain' noWsPair l) :
    List.Chain' noWsPair (trimJS l) := by
  unfold trimJS
  have h1 : List.Chain' noWsPair (l.dropWhile isWsJS) :=
    h.suffix (List.dropWhile_suffix isWsJS)
  have h2 : List.Chain' noWsPair (l.dropWhile isWsJS).reverse := by
    rw [List.chain'_reverse, noWsPair_flip]
    exact h1
  have h3 := h2.suffix (List.dropWhile_suffix isWsJS)
  rw [List.chain'_reverse, noWsPair_flip]
  exact h3

theorem mem_normalizeText (s : List Char) (c : Char) (h : c ∈ normalizeText s) :
    normOutChar c = true := by
  unfold normalizeText at h
  have h1 := mem_trimJS _ c h
  rcases mem_collapseWsGo _ false c h1 with h2 | h2
  · subst h2; decide
  · obtain ⟨h3, hnw⟩ := h2
    rw [List.mem_filter] at h3
    obtain ⟨h4, hkeep⟩ := h3
    rw [List.mem_map] at h4
    obtain ⟨d, _, hd⟩ := h4
    have hnl := toUpperJS_not_lower d
    rw [hd] at hnl
    unfold keepChar isWordJS at hkeep
    unfold normOutChar
    rw [hnw] at hkeep
    have e1 : (',').toNat = 44 := rfl
    have e2 : ('.').toNat = 46 := rfl
    have e3 : ('-').toNat = 45 := rfl
    simp only [Bool.or_false, Bool.or_eq_true, Bool.and_eq_true, decide_eq_true_eq,
      beq_iff_eq, char_eq_iff_toNat] at hkeep ⊢
    omega

theorem chain'_normalizeText (s : List Char) :
    List.Chain' noWsPair (normalizeText s) := by
  unfold normalizeText
  exact chain'_trimJS _ (chain'_collapseWsGo _ false)

theorem normalizeText_head_not_ws (s : List Char) (c : Char)
    (h : (normalizeText s).head? = some c) : isWsJS c = false := by
  unfold normalizeText trimJS at h
  set A := collapseWsGo false ((s.map toUpperJS).filter keepChar) with hA
  set C := List.dropWhile isWsJS A with hC
  set D := List.dropWhile isWsJS C.reverse with hD
  rw [List.head?_reverse] at h
  have hsuf : D <:+ C.reverse := by rw [hD]; exact List.dropWhile_suffix isWsJS
  obtain ⟨t, ht⟩ := hsuf
  have hDne : D ≠ [] := by
    intro hnil
    rw [hnil] at h
    simp at h
  have hlast : C.reverse.getLast? = D.getLast? := by
    rw [← ht, List.getLast?_append]
    cases hDl : D.getLast? with
    | none => exact absurd (List.getLast?_eq_none_iff.mp hDl) hDne
    | some x => simp
  rw [← hlast, List.getLast?_reverse] at h
  have h2 := List.head?_dropWhile_not isWsJS A
  rw [← hC] at h2
  rw [h] at h2
  exact h2

theorem normalizeText_last_not_ws (s : List Char) (c : Char)
    (h : (normalizeText s).getLast? = some c) : isWsJS c = false := by
  unfold normalizeText trimJS at h
  rw [List.getLast?_reverse] at h
  have := List.head?_dropWhile_not isWsJS
    ((collapseWsGo false ((s.map toUpperJS).filter keepChar)).dropWhile isWsJS).reverse
  rw [h] at this
  exact this

/-! ## Idempotence machinery -/

theorem collapseWsGo_id (l : List Char)
    (hws : ∀ c ∈ l, isWsJS c = true → c = ' ')
    (hch : List.Chain' noWsPair l) :
    collapseWsGo false l = l ∧
      ((∀ x, l.head? = some x → isWsJS x = false) → collapseWsGo true l = l) := by
  induction l with
  | nil => exact ⟨rfl, fun _ => rfl⟩
  | cons c cs ih =>
    have hws2 : ∀ d ∈ cs, isWsJS d = true → d = ' ' :=
      fun d hd => hws d (List.mem_cons_of_mem c hd)
    have hch2 : List.Chain' noWsPair cs := hch.tail
    obtain ⟨ihF, ihT⟩ := ih hws2 hch2
    by_cases hc : isWsJS c = true
    · have hcsp : c = ' ' := hws c (List.mem_cons_self c cs) hc
      constructor
      · show collapseWsGo false (c :: cs) = c :: cs
        unfold collapseWsGo
        rw [if_pos hc, if_neg Bool.false_ne_true, hcsp]
        congr 1
        apply ihT
        intro x hx
        have hpair := (List.chain'_cons'.mp hch).1 x (by simpa using hx)
        by_contra hxx
        exact hpair ⟨hc, by simpa using hxx⟩
      · intro hhead
        have hfc := hhead c rfl
        rw [hc] at hfc
        exact absurd hfc (by simp)
    · constructor
      · unfold collapseWsGo
        rw [if_neg hc, ihF]
      · intro _
        unfold collapseWsGo
        rw [if_neg hc, ihF]

theorem dropWhile_id_of_head (l : List Char)
    (h : ∀ x, l.head? = some x → isWsJS x = false) :
    l.dropWhile isWsJS = l := by
  cases l with
  | nil => rfl
  | cons c cs =>
    rw [List.dropWhile_cons, if_neg]
    rw [h c rfl]
    simp

/-- Claim C10: `normalize` is idempotent — applying `normalizeText` twice
gives the same result as applying it once, for every input string. -/
theorem normalizeText_idempotent (s : List Char) :
    normalizeText (normalizeText s) = normalizeText s := by
  have hmem := mem_normalizeText s
  have hmap : (normalizeText s).map toUpperJS = normalizeText s := by
    have h1 : ∀ c ∈ normalizeText s, toUpperJS c = id c :=
      fun c hc => normOutChar_fix c (hmem c hc)
    rw [List.map_congr_left h1, List.map_id]
  have hfil : (normalizeText s).filter keepChar = normalizeText s :=
    List.filter_eq_self.mpr (fun c hc => normOutChar_keep c (hmem c hc))
  have hcol : collapseWsGo false (normalizeText s) = normalizeText s :=
    (collapseWsGo_id (normalizeText s)
      (fun c hc hw => normOutChar_ws c (hmem c hc) hw)
      (chain'_normalizeText s)).1
  have hdropL : (normalizeText s).dropWhile isWsJS = normalizeText s :=
    dropWhile_id_of_head _ (normalizeText_head_not_ws s)
  have hdropR : (normalizeText s).reverse.dropWhile isWsJS = (normalizeText s).reverse := by
    apply dropWhile_id_of_head
    intro x hx
    rw [List.head?_reverse] at hx
    exact normalizeText_last_not_ws s x hx
  show trimJS (collapseWsGo false (((normalizeText s).map toUpperJS).filter keepChar)) =
    normalizeText s
  rw [hmap, hfil, hcol]
  unfold trimJS
  rw [hdropL, hdropR, List.reverse_reverse]

/-- Claim C9 counterexample: underscore survives `normalizeText` but is not
alphanumeric, whitespace, comma, period or hyphen — the claimed output
character set is too small. -/
theorem normalizeText_charset_counterexample :
    normalizeText ['_'] = ['_'] ∧
      ¬(('_').isAlphanum = true ∨ isWsJS '_' = true ∨ '_' = ',' ∨ '_' = '.' ∨ '_' = '-') := by
  constructor
  · rfl
  · decide

/-- Claim C9 (amended): `normalizeText` upper-cases and strips every
character that is not ASCII alphanumeric, underscore, whitespace, comma,
period, or hyphen; every character of the output is an uppercase ASCII
letter, a digit, `_`, a single space, `,`, `.` or `-`; no two adjacent
output characters are whitespace, and the output has no leading or
trailing whitespace. -/
theorem normalizeText_charset (s : List Char) :
    (∀ c ∈ normalizeText s, normOutChar c = true) ∧
    List.Chain' noWsPair (normalizeText s) ∧
    (∀ c, (normalizeText s).head? = some c → isWsJS c = false) ∧
    (∀ c, (normalizeText s).getLast? = some c → isWsJS c = false) :=
  ⟨mem_normalizeText s, chain'_normalizeText s,
    normalizeText_head_not_ws s, normalizeText_last_not_ws s⟩

theorem normalizeText_charset_witness :
    normOutChar 'A' = true ∧ isWsJS 'B' = false :=
  ⟨(normalizeText_charset ("a?  b_".toList)).1 'A' (by decide),
   (normalizeText_charset ("  ab ".toList)).2.2.2 'B' (by decide)⟩

/-! ## Knowledge base (passport.ts lines 50-296)

The `COUNTRY_AIRPORTS` object literal, in declaration order (JavaScript
`Object.values`/`Object.entries` iterate string keys in insertion order).
Each airport maps its canonical display name to its identifying tokens. -/

structure CountryData where
  name : List Char
  codes : List (List Char)
  airports : List (List Char × List (List Char))
deriving DecidableEq, Repr

def COUNTRY_AIRPORTS : List CountryData := [
  ⟨"Croatia".toList, ["HR".toList, "HRV".toList, "CROATIA".toList, "HR:".toList],
    [("Split Airport".toList, ["SPLIT".toList, "SPU".toList, "A 008".toList, "A008".toList, "SPLIT AIRPORT".toList, "SPU AIRPORT".toList]),
     ("Zagreb Airport".toList, ["ZAGREB".toList, "ZAG".toList, "ZAGREB AIRPORT".toList]),
     ("Dubrovnik Airport".toList, ["DUBROVNIK".toList, "DBV".toList, "DUBROVNIK AIRPORT".toList]),
     ("Zadar Airport".toList, ["ZADAR".toList, "ZAD".toList, "ZADAR AIRPORT".toList])]⟩,
  ⟨"Austria".toList, ["AT".toList, "AUT".toList, "AUSTRIA".toList],
    [("Vienna International Airport".toList, ["VIE".toList, "WIEN".toList, "VIENNA".toList, "VIE AIRPORT".toList, "VIENNA INTERNATIONAL AIRPORT".toList])]⟩,
  ⟨"Belgium".toList, ["BE".toList, "BEL".toList, "BELGIUM".toList],
    [("Brussels Airport".toList, ["BRU".toList, "BRUSSELS".toList, "ZAVENTEM".toList, "BRUSSELS AIRPORT".toList, "ZAVENTEM AIRPORT".toList])]⟩,
  ⟨"Denmark".toList, ["DK".toList, "DNK".toList, "DENMARK".toList],
    [("Copenhagen Airport".toList, ["CPH".toList, "KØBENHAVN".toList, "KOBENHAVN".toList, "KASTRUP".toList, "CPH AIRPORT".toList, "KØBENHAVN AIRPORT".toList, "KASTRUP AIRPORT".toList])]⟩,
  ⟨"France".toList, ["FR".toList, "FRA".toList, "FRANCE".toList],
    [("Charles de Gaulle Airport".toList, ["CDG".toList, "ROISSY".toList, "PARIS CDG".toList, "CDG AIRPORT".toList, "CHARLES DE GAULLE AIRPORT".toList, "ROISSY AIRPORT".toList]),
     ("Orly Airport".toList, ["ORY".toList, "PARIS ORLY".toList, "ORY AIRPORT".toList, "PARIS ORLY AIRPORT".toList])]⟩,
  ⟨"Germany".toList, ["DE".toList, "DEU".toList, "GERMANY".toList],
    [("Frankfurt Airport".toList, ["FRA".toList, "FRANKFURT".toList, "FRA AIRPORT".toList, "FRANKFURT AIRPORT".toList]),
     ("Munich Airport".toList, ["MUC".toList, "MÜNCHEN".toList, "MUNICH".toList, "MUC AIRPORT".toList, "MÜNCHEN AIRPORT".toList, "MUNICH AIRPORT".toList])]⟩,
  ⟨"Italy".toList, ["IT".toList, "ITA".toList, "ITALY".toList],
    [("Rome Fiumicino Airport".toList, ["FCO".toList, "ROMA".toList, "ROME".toList, "FIUMICINO".toList, "FCO AIRPORT".toList, "ROME FIUMICINO AIRPORT".toList, "FIUMICINO AIRPORT".toList]),
     ("Milan Malpensa Airport".toList, ["MXP".toList, "MILANO".toList, "MILAN".toList, "MALPENSA".toList, "MXP AIRPORT".toList, "MILAN MALPENSA AIRPORT".toList, "MALPENSA AIRPORT".toList])]⟩,
  ⟨"Netherlands".toList, ["NL".toList, "NLD".toList, "NETHERLANDS".toList],
    [("Amsterdam Airport Schiphol".toList, ["AMS".toList, "SCHIPHOL".toList, "AMSTERDAM".toList, "AMS AIRPORT".toList, "AMSTERDAM AIRPORT SCHIPHOL".toList, "SCHIPHOL AIRPORT".toList])]⟩,
  ⟨"Spain".toList, ["ES".toList, "ESP".toList, "SPAIN".toList],
    [("Madrid Barajas Airport".toList, ["MAD".toList, "MADRID".toList, "BARAJAS".toList, "MAD AIRPORT".toList, "MADRID BARAJAS AIRPORT".toList, "BARAJAS AIRPORT".toList]),
     ("Barcelona El Prat Airport".toList, ["BCN".toList, "BARCELONA".toList, "EL PRAT".toList, "BCN AIRPORT".toList, "BARCELONA EL PRAT AIRPORT".toList, "EL PRAT AIRPORT".toList])]⟩,
  ⟨"India".toList, ["IN".toList, "IND".toList, "INDIA".toList],
    [("Indira Gandhi International Airport".toList, ["DEL".toList, "DELHI".toList, "IGI".toList, "NEW DELHI".toList, "DEL AIRPORT".toList, "DELHI AIRPORT".toList, "IGI AIRPORT".toList, "NEW DELHI AIRPORT".toList, "INDIRA GANDHI INTERNATIONAL AIRPORT".toList]),
     ("Chhatrapati Shivaji International Airport".toList, ["BOM".toList, "MUMBAI".toList, "CSMI".toList, "SAHAR".toList, "BOM AIRPORT".toList, "MUMBAI AIRPORT".toList, "CSMI AIRPORT".toList, "SAHAR AIRPORT".toList, "CHHATRAPATI SHIVAJI INTERNATIONAL AIRPORT".toList]),
     ("Kempegowda International Airport".toList, ["BLR".toList, "BANGALORE".toList, "BENGALURU".toList, "BLR AIRPORT".toList, "BANGALORE AIRPORT".toList, "BENGALURU AIRPORT".toList, "KEMPEGOWDA INTERNATIONAL AIRPORT".toList]),
     ("Chennai International Airport".toList, ["MAA".toList, "CHENNAI".toList, "MADRAS".toList, "MAA AIRPORT".toList, "CHENNAI AIRPORT".toList, "MADRAS AIRPORT".toList, "CHENNAI INTERNATIONAL AIRPORT".toList])]⟩,
  ⟨"Czech Republic".toList, ["CZ".toList, "CZE".toList, "CZECH REPUBLIC".toList, "CZECH".toList],
    [("Václav Havel Airport Prague".toList, ["PRG".toList, "PRAGUE".toList, "VACLAV HAVEL".toList, "VACLAV HAVEL AIRPORT PRAGUE".toList, "PRAGUE AIRPORT".toList])]⟩,
  ⟨"Estonia".toList, ["EE".toList, "EST".toList, "ESTONIA".toList],
    [("Lennart Meri Tallinn Airport".toList, ["TLL".toList, "TALLINN".toList, "LENNART MERI".toList, "LENNART MERI TALLINN AIRPORT".toList, "TALLINN AIRPORT".toList])]⟩,
  ⟨"Finland".toList, ["FI".toList, "FIN".toList, "FINLAND".toList],
    [("Helsinki Airport".toList, ["HEL".toList, "HELSINKI".toList, "VANTAA".toList, "HELSINKI AIRPORT".toList, "VANTAA AIRPORT".toList])]⟩,
  ⟨"Greece".toList, ["GR".toList, "GRC".toList, "GREECE".toList],
    [("Athens International Airport".toList, ["ATH".toList, "ATHENS".toList, "ELEFTHERIOS VENIZELOS".toList, "ATHENS INTERNATIONAL AIRPORT".toList, "ELEFTHERIOS VENIZELOS AIRPORT".toList]),
     ("Thessaloniki Airport".toList, ["SKG".toList, "THESSALONIKI".toList, "MACEDONIA".toList, "THESSALONIKI AIRPORT".toList, "MACEDONIA AIRPORT".toList])]⟩,
  ⟨"Hungary".toList, ["HU".toList, "HUN".toList, "HUNGARY".toList],
    [("Budapest Ferenc Liszt International Airport".toList, ["BUD".toList, "BUDAPEST".toList, "FERENC LISZT".toList, "BUDAPEST FERENC LISZT INTERNATIONAL AIRPORT".toList, "FERENC LISZT INTERNATIONAL AIRPORT".toList])]⟩,
  ⟨"Iceland".toList, ["IS".toList, "ISL".toList, "ICELAND".toList],
    [("Keflavík International Airport".toList, ["KEF".toList, "KEFLAVIK".toList, "REYKJAVIK".toList, "KEFLAVIK INTERNATIONAL AIRPORT".toList, "REYKJAVIK AIRPORT".toList])]⟩,
  ⟨"Latvia".toList, ["LV".toList, "LVA".toList, "LATVIA".toList],
    [("Riga International Airport".toList, ["RIX".toList, "RIGA".toList, "RIGA INTERNATIONAL AIRPORT".toList])]⟩,
  ⟨"Liechtenstein".toList, ["LI".toList, "LIE".toList, "LIECHTENSTEIN".toList], []⟩,
  ⟨"Lithuania".toList, ["LT".toList, "LTU".toList, "LITHUANIA".toList],
    [("Vilnius Airport".toList, ["VNO".toList, "VILNIUS".toList, "VILNIUS AIRPORT".toList]),
     ("Kaunas Airport".toList, ["KUN".toList, "KAUNAS".toList, "KAUNAS AIRPORT".toList])]⟩,
  ⟨"Luxembourg".toList, ["LU".toList, "LUX".toList, "LUXEMBOURG".toList],
    [("Luxembourg Airport".toList, ["LUX".toList, "LUXEMBOURG-FINDEL".toList, "LUXEMBOURG".toList, "LUXEMBOURG AIRPORT".toList, "LUXEMBOURG-FINDEL AIRPORT".toList, "FINDEL".toList])]⟩,
  ⟨"Malta".toList, ["MT".toList, "MLT".toList, "MALTA".toList],
    [("Malta International Airport".toList, ["MLA".toList, "MALTA".toList, "MALTA INTERNATIONAL AIRPORT".toList])]⟩,
  ⟨"Norway".toList, ["NO".toList, "NOR".toList, "NORWAY".toList],
    [("Oslo Airport".toList, ["OSL".toList, "OSLO".toList, "GARDERMOEN".toList, "OSLO AIRPORT".toList, "OSLO GARDERMOEN AIRPORT".toList])]⟩,
  ⟨"Poland".toList, ["PL".toList, "POL".toList, "POLAND".toList],
    [("Warsaw Chopin Airport".toList, ["WAW".toList, "WARSAW".toList, "CHOPIN".toList, "WARSAW CHOPIN AIRPORT".toList, "CHOPIN AIRPORT".toList]),
     ("Kraków John Paul II International Airport".toList, ["KRK".toList, "KRAKOW".toList, "KRAKÓW".toList, "JOHN PAUL II".toList, "KRAKOW AIRPORT".toList, "KRAKÓW JOHN PAUL II INTERNATIONAL AIRPORT".toList, "JOHN PAUL II INTERNATIONAL AIRPORT".toList])]⟩,
  ⟨"Portugal".toList, ["PT".toList, "PRT".toList, "PORTUGAL".toList],
    [("Lisbon Airport".toList, ["LIS".toList, "LISBON".toList, "LISBOA".toList, "LISBON AIRPORT".toList, "LISBOA AIRPORT".toList]),
     ("Francisco Sá Carneiro Airport".toList, ["OPO".toList, "PORTO".toList, "PORTO AIRPORT".toList, "FRANCISCO SÁ CARNEIRO AIRPORT".toList])]⟩,
  ⟨"Slovakia".toList, ["SK".toList, "SVK".toList, "SLOVAKIA".toList],
    [("Bratislava Airport".toList, ["BTS".toList, "BRATISLAVA".toList, "BRATISLAVA AIRPORT".toList])]⟩,
  ⟨"Slovenia".toList, ["SI".toList, "SVN".toList, "SLOVENIA".toList],
    [("Ljubljana Jože Pučnik Airport".toList, ["LJU".toList, "LJUBLJANA".toList, "JOŽE PUČNIK".toList, "LJUBLJANA JOŽE PUČNIK AIRPORT".toList, "JOŽE PUČNIK AIRPORT".toList])]⟩,
  ⟨"Sweden".toList, ["SE".toList, "SWE".toList, "SWEDEN".toList],
    [("Stockholm Arlanda Airport".toList, ["ARN".toList, "STOCKHOLM".toList, "ARLANDA".toList, "STOCKHOLM ARLANDA AIRPORT".toList, "ARLANDA AIRPORT".toList]),
     ("Gothenburg Landvetter Airport".toList, ["GOT".toList, "GOTHENBURG".toList, "LANDVETTER".toList, "GOTHENBURG LANDVETTER AIRPORT".toList, "LANDVETTER AIRPORT".toList])]⟩,
  ⟨"Switzerland".toList, ["CH".toList, "CHE".toList, "SWITZERLAND".toList, "SCHWEIZ".toList],
    [("Zurich Airport".toList, ["ZRH".toList, "ZURICH".toList, "ZÜRICH".toList, "ZURICH AIRPORT".toList, "ZÜRICH AIRPORT".toList]),
     ("Geneva Airport".toList, ["GVA".toList, "GENEVA".toList, "GENÈVE".toList, "GENEVA AIRPORT".toList, "GENÈVE AIRPORT".toList])]⟩,
  ⟨"China".toList, ["CN".toList, "CHN".toList, "CHINA".toList],
    [("Beijing Capital International Airport".toList, ["PEK".toList, "BEIJING".toList, "CAPITAL".toList, "BEIJING CAPITAL INTERNATIONAL AIRPORT".toList, "PEK AIRPORT".toList]),
     ("Shanghai Pudong International Airport".toList, ["PVG".toList, "SHANGHAI".toList, "PUDONG".toList, "SHANGHAI PUDONG INTERNATIONAL AIRPORT".toList, "PVG AIRPORT".toList]),
     ("Guangzhou Baiyun International Airport".toList, ["CAN".toList, "GUANGZHOU".toList, "BAIYUN".toList, "GUANGZHOU BAIYUN INTERNATIONAL AIRPORT".toList, "CAN AIRPORT".toList])]⟩,
  ⟨"United States of America".toList, ["US".toList, "USA".toList, "UNITED STATES".toList, "UNITED STATES OF AMERICA".toList],
    [("Hartsfield-Jackson Atlanta International Airport".toList, ["ATL".toList, "ATLANTA".toList, "HARTSFIELD-JACKSON".toList, "HARTSFIELD-JACKSON ATLANTA INTERNATIONAL AIRPORT".toList, "ATL AIRPORT".toList]),
     ("Los Angeles International Airport".toList, ["LAX".toList, "LOS ANGELES".toList, "LAX AIRPORT".toList, "LOS ANGELES INTERNATIONAL AIRPORT".toList]),
     ("O\x27Hare International Airport".toList, ["ORD".toList, "CHICAGO".toList, "O\x27HARE".toList, "O\x27HARE INTERNATIONAL AIRPORT".toList, "ORD AIRPORT".toList]),
     ("Dallas/Fort Worth International Airport".toList, ["DFW".toList, "DALLAS".toList, "FORT WORTH".toList, "DALLAS/FORT WORTH INTERNATIONAL AIRPORT".toList, "DFW AIRPORT".toList]),
     ("Denver International Airport".toList, ["DEN".toList, "DENVER".toList, "DENVER INTERNATIONAL AIRPORT".toList, "DEN AIRPORT".toList]),
     ("John F. Kennedy International Airport".toList, ["JFK".toList, "NEW YORK".toList, "KENNEDY".toList, "JOHN F. KENNEDY INTERNATIONAL AIRPORT".toList, "JFK AIRPORT".toList])]⟩]

def AIRPORT_KEYWORDS : List (List Char) :=
  ["AIRPORT".toList, "AEROPORTO".toList, "AEROPORT".toList, "FLUGHAFEN".toList,
   "LUFTHAVN".toList, "INTERNATIONAL".toList, "TERMINAL".toList, "INTL".toList]

/-! ## detectCountry (passport.ts lines 321-457) -/

/-- The `cityMapping` object literal inside `detectCountry`, in declaration
order. -/
def cityMapping : List (List Char × List Char) := [
  ("KØBENHAVN".toList, "Denmark".toList),
  ("KOBENHAVN".toList, "Denmark".toList),
  ("KASTRUP".toList, "Denmark".toList),
  ("PARIS".toList, "France".toList),
  ("ROISSY".toList, "France".toList),
  ("ORLY".toList, "France".toList),
  ("FRANKFURT".toList, "Germany".toList),
  ("MÜNCHEN".toList, "Germany".toList),
  ("MUNICH".toList, "Germany".toList),
  ("AMSTERDAM".toList, "Netherlands".toList),
  ("SCHIPHOL".toList, "Netherlands".toList),
  ("MADRID".toList, "Spain".toList),
  ("BARAJAS".toList, "Spain".toList),
  ("BARCELONA".toList, "Spain".toList),
  ("EL PRAT".toList, "Spain".toList),
  ("ROMA".toList, "Italy".toList),
  ("ROME".toList, "Italy".toList),
  ("MILANO".toList, "Italy".toList),
  ("MILAN".toList, "Italy".toList),
  ("FIUMICINO".toList, "Italy".toList),
  ("MALPENSA".toList, "Italy".toList),
  ("BRUSSELS".toList, "Belgium".toList),
  ("ZAVENTEM".toList, "Belgium".toList),
  ("WIEN".toList, "Austria".toList),
  ("VIENNA".toList, "Austria".toList),
  ("SPLIT".toList, "Croatia".toList),
  ("ZAGREB".toList, "Croatia".toList),
  ("DUBROVNIK".toList, "Croatia".toList),
  ("ZADAR".toList, "Croatia".toList),
  ("MUMBAI".toList, "India".toList),
  ("DELHI".toList, "India".toList),
  ("NEW DELHI".toList, "India".toList),
  ("BANGALORE".toList, "India".toList),
  ("BENGALURU".toList, "India".toList),
  ("CHENNAI".toList, "India".toList),
  ("MADRAS".toList, "India".toList),
  ("PRAGUE".toList, "Czech Republic".toList),
  ("VACLAV HAVEL".toList, "Czech Republic".toList),
  ("TALLINN".toList, "Estonia".toList),
  ("LENNART MERI".toList, "Estonia".toList),
  ("HELSINKI".toList, "Finland".toList),
  ("VANTAA".toList, "Finland".toList),
  ("ATHENS".toList, "Greece".toList),
  ("ELEFTHERIOS VENIZELOS".toList, "Greece".toList),
  ("THESSALONIKI".toList, "Greece".toList),
  ("MACEDONIA".toList, "Greece".toList),
  ("BUDAPEST".toList, "Hungary".toList),
  ("FERENC LISZT".toList, "Hungary".toList),
  ("REYKJAVIK".toList, "Iceland".toList),
  ("KEFLAVIK".toList, "Iceland".toList),
  ("RIGA".toList, "Latvia".toList),
  ("VILNIUS".toList, "Lithuania".toList),
  ("KAUNAS".toList, "Lithuania".toList),
  ("LUXEMBOURG".toList, "Luxembourg".toList),
  ("MALTA".toList, "Malta".toList),
  ("OSLO".toList, "Norway".toList),
  ("GARDERMOEN".toList, "Norway".toList),
  ("WARSAW".toList, "Poland".toList),
  ("CHOPIN".toList, "Poland".toList),
  ("KRAKOW".toList, "Poland".toList),
  ("KRAKÓW".toList, "Poland".toList),
  ("JOHN PAUL II".toList, "Poland".toList),
  ("LISBON".toList, "Portugal".toList),
  ("LISBOA".toList, "Portugal".toList),
  ("PORTO".toList, "Portugal".toList),
  ("BRATISLAVA".toList, "Slovakia".toList),
  ("LJUBLJANA".toList, "Slovenia".toList),
  ("JOŽE PUČNIK".toList, "Slovenia".toList),
  ("STOCKHOLM".toList, "Sweden".toList),
  ("ARLANDA".toList, "Sweden".toList),
  ("GOTHENBURG".toList, "Sweden".toList),
  ("LANDVETTER".toList, "Sweden".toList),
  ("ZURICH".toList, "Switzerland".toList),
  ("ZÜRICH".toList, "Switzerland".toList),
  ("GENEVA".toList, "Switzerland".toList),
  ("GENÈVE".toList, "Switzerland".toList),
  ("BEIJING".toList, "China".toList),
  ("SHANGHAI".toList, "China".toList),
  ("GUANGZHOU".toList, "China".toList),
  ("ATLANTA".toList, "United States of America".toList),
  ("LOS ANGELES".toList, "United States of America".toList),
  ("CHICAGO".toList, "United States of America".toList),
  ("DALLAS".toList, "United States of America".toList),
  ("FORT WORTH".toList, "United States of America".toList),
  ("DENVER".toList, "United States of America".toList),
  ("NEW YORK".toList, "United States of America".toList),
  ("KENNEDY".toList, "United States of America".toList)]

/-- Boundary characters of the country-code regex
`/(?:^|\s|:)([A-Z]{2})(?:\s|:|$)/`: whitespace or a colon. -/
def isCodeBoundary (c : Char) : Bool := isWsJS c || (c == ':')

/-- Attempt of the country-code regex at the current position: two
uppercase letters followed by a boundary character or the end of the
string; returns the captured group. -/
def codeAt : List Char → Option (List Char)
  | [a, b] => if isAZ a && isAZ b then some [a, b] else none
  | a :: b :: c :: _ => if isAZ a && isAZ b && isCodeBoundary c then some [a, b] else none
  | _ => none

/-- Scan for the first match whose leading alternative consumed a
whitespace-or-colon character (i.e. matches starting after position 0). -/
def firstCodeMatchTail : List Char → Option (List Char)
  | [] => none
  | c :: tl =>
    if isCodeBoundary c then
      match codeAt tl with
      | some r => some r
      | none => firstCodeMatchTail tl
    else firstCodeMatchTail tl

/-- First match of `/(?:^|\s|:)([A-Z]{2})(?:\s|:|$)/` (the captured
two-letter group), scanning left to right; at position 0 the `^`
alternative applies. -/
def firstCodeMatch (s : List Char) : Option (List Char) :=
  match codeAt s with
  | some r => some r
  | none => firstCodeMatchTail s

/-- Confidence scores are exact multiples of 0.05 in the source; they are
modelled in hundredths (`95` stands for the literal `0.95`), which keeps
ordering and `Math.min` faithful. -/
abbrev Confidence := Nat

/-- Steps two to four of `detectCountry`: the city-mapping scan, the
full-country-name scan, and the `India` default (confidences 0.9, 0.8 and
0.5). -/
def countryFromCities (nt : List Char) : List Char × Confidence :=
  match cityMapping.find? (fun p => strContains nt p.1) with
  | some p => (p.2, 90)
  | none =>
    match COUNTRY_AIRPORTS.find? (fun d => strContains nt (d.name.map toUpperJS)) with
    | some d => (d.name, 80)
    | none => ("India".toList, 50)

/-- Function `detectCountry` from the source: returns the country name and the
confidence score (0.95 for a standalone country-code match). -/
def detectCountry (text : List Char) : List Char × Confidence :=
  let normalizedText := normalizeText text
  match firstCodeMatch normalizedText with
  | some code =>
    match COUNTRY_AIRPORTS.find? (fun d => d.codes.contains code) with
    | some d => (d.name, 95)
    | none => countryFromCities normalizedText
  | none => countryFromCities normalizedText

/-! ## detectAirport (passport.ts lines 460-520) -/

/-- Model of `Array.prototype.join` with a separator. -/
def joinWith (sep : List Char) : List (List Char) → List Char
  | [] => []
  | [x] => x
  | x :: y :: rest => x ++ sep ++ joinWith sep (y :: rest)

/-- The scan over `countryData.airports`: for the first entry one of whose
identifying tokens occurs in the combined text, return the first such token
(`codes.some` guard followed by `codes.find` in the source). -/
def firstAirportTokenMatch : List (List Char × List (List Char)) → List Char → Option (List Char)
  | [], _ => none
  | (_, toks) :: rest, combined =>
    match toks.find? (fun t => strContains combined t) with
    | some t => some t
    | none => firstAirportTokenMatch rest combined

/-- The returned airport string for a token match: the token upper-cased,
suffixed with `" AIRPORT"` unless it already contains `"AIRPORT"`. -/
def airportLabelOfToken (t : List Char) : List Char :=
  let u := t.map toUpperJS
  if strContains u ("AIRPORT".toList) then u else u ++ " AIRPORT".toList

/-- Function `detectAirport` from the source: blocks are normalized and joined with
spaces; priority: country unknown (0.3), token match (0.9), generic
airport keyword (0.7 with a declared main airport, 0.6 otherwise), declared
main airport (0.5), fallback (0.3). -/
def detectAirport (blocks : List (List Char)) (country : List Char) :
    List Char × Confidence :=
  let normalizedBlocks := blocks.map normalizeText
  let combinedText := joinWith [' '] normalizedBlocks
  match COUNTRY_AIRPORTS.find? (fun d => d.name == country) with
  | none => ("Unknown International Airport".toList, 30)
  | some cd =>
    match firstAirportTokenMatch cd.airports combinedText with
    | some tok => (airportLabelOfToken tok, 90)
    | none =>
      match normalizedBlocks.find? (fun b => AIRPORT_KEYWORDS.any (fun k => strContains b k)) with
      | some b =>
        match cd.airports.head? with
        | some a => (a.1, 70)
        | none => (b, 60)
      | none =>
        match cd.airports.head? with
        | some a => (a.1, 50)
        | none => ("Unknown International Airport".toList, 30)

/-! ## detectStampType (passport.ts lines 536-596) -/

inductive StampDir where
  | ARRIVAL
  | DEPARTURE
deriving DecidableEq, Repr

def arrivalKeywords : List (List Char) :=
  ["ARRIVAL".toList, "IMMIGRATION IN".toList, "ENTRY".toList, "ADMITTED".toList,
   "ENTRADA".toList, "IN".toList, "ENTRÉE".toList, "EINREISE".toList]

def departureKeywords : List (List Char) :=
  ["DEPARTURE".toList, "IMMIGRATION OUT".toList, "EXIT".toList, "LEFT".toList,
   "SALIDA".toList, "OUT".toList, "SORTIE".toList, "AUSREISE".toList, "DEPARTED".toList]

def leftArrowSymbols : List (List Char) :=
  ["←".toList, "⇐".toList, "<-".toList, "<=".toList]

def rightArrowSymbols : List (List Char) :=
  ["→".toList, "⇒".toList, "->".toList, "=>".toList]

/-- Test of `/[-=]*>/`: since `[-=]*` may match the empty string, the
pattern matches exactly when the string contains `>`. -/
def patDashGt (s : List Char) : Bool := s.contains '>'

/-- Test of `/<[-=]*/`: matches exactly when the string contains `<`. -/
def patLtDash (s : List Char) : Bool := s.contains '<'

/-- Test of `/\[?←\]?/`: the brackets are optional, so the pattern matches
exactly when the string contains `←`. -/
def patBrLeft (s : List Char) : Bool := s.contains '←'

/-- Test of `/\[?⇐\]?/`. -/
def patBrDblLeft (s : List Char) : Bool := s.contains '⇐'

/-- Test of `/\[?→\]?/`. -/
def patBrRight (s : List Char) : Bool := s.contains '→'

/-- Test of `/\[?⇒\]?/`. -/
def patBrDblRight (s : List Char) : Bool := s.contains '⇒'

/-- The per-block arrow-pattern scan: for each block (normalized), the four
departure patterns are tested before the four arrival patterns. -/
def arrowBlockScan : List (List Char) → Option StampDir
  | [] => none
  | b :: rest =>
    let nb := normalizeText b
    if patLtDash nb || patDashGt nb || patBrRight nb || patBrDblRight nb then
      some .DEPARTURE
    else if patDashGt nb || patLtDash nb || patBrLeft nb || patBrDblLeft nb then
      some .ARRIVAL
    else arrowBlockScan rest

/-- Function `detectStampType` from the source: left/right arrow symbols in the
normalized combined text, then arrow-like regex patterns per block
(departure set before arrival set), then keywords (departure set before
arrival set), defaulting to ARRIVAL. -/
def detectStampType (text : List Char) (blocks : List (List Char)) : StampDir :=
  let normalizedText := normalizeText text
  if leftArrowSymbols.any (fun a => strContains normalizedText a) then .ARRIVAL
  else if rightArrowSymbols.any (fun a => strContains normalizedText a) then .DEPARTURE
  else
    match arrowBlockScan blocks with
    | some d => d
    | none =>
      if departureKeywords.any (fun k => strContains normalizedText k) then .DEPARTURE
      else if arrivalKeywords.any (fun k => strContains normalizedText k) then .ARRIVAL
      else .ARRIVAL

/-! ## Lemmas about substring containment and normalized text -/

theorem startsWithSeq_mem (pat : List Char) :
    ∀ s, startsWithSeq s pat = true → ∀ c ∈ pat, c ∈ s := by
  induction pat with
  | nil => intro s _ c hc; simp at hc
  | cons p ps ih =>
    intro s h c hc
    cases s with
    | nil => simp [startsWithSeq] at h
    | cons x xs =>
      unfold startsWithSeq at h
      rw [Bool.and_eq_true] at h
      obtain ⟨h1, h2⟩ := h
      rw [beq_iff_eq] at h1
      rcases List.mem_cons.mp hc with hc | hc
      · subst hc; rw [← h1]; exact List.mem_cons_self x xs
      · exact List.mem_cons_of_mem x (ih xs h2 c hc)

theorem strContains_mem (s pat : List Char) (h : strContains s pat = true) :
    ∀ c ∈ pat, c ∈ s := by
  induction s with
  | nil =>
    intro c hc
    unfold strContains at h
    rw [List.isEmpty_iff] at h
    subst h
    simp at hc
  | cons x xs ih =>
    intro c hc
    unfold strContains at h
    rw [Bool.or_eq_true] at h
    rcases h with h | h
    · exact startsWithSeq_mem pat (x :: xs) h c hc
    · exact List.mem_cons_of_mem x (ih h c hc)

/-- If the pattern has a character outside the output alphabet of
`normalizeText`, the normalized text never contains the pattern. -/
theorem strContains_norm_false (s pat : List Char) (c : Char) (hc : c ∈ pat)
    (hbad : normOutChar c = false) : strContains (normalizeText s) pat = false := by
  by_contra h
  rw [Bool.not_eq_false] at h
  have := mem_normalizeText s c (strContains_mem _ _ h c hc)
  rw [hbad] at this
  exact Bool.false_ne_true this

/-- The normalized text never contains the character `c` when `c` is
outside the output alphabet. -/
theorem any_eq_norm_false (s : List Char) (c : Char) (hbad : normOutChar c = false) :
    (normalizeText s).contains c = false := by
  by_contra h
  rw [Bool.not_eq_false, List.contains_eq_any_beq, List.any_eq_true] at h
  obtain ⟨x, hx, hxc⟩ := h
  rw [beq_iff_eq] at hxc
  rw [← hxc] at hx
  have := mem_normalizeText s c hx
  rw [hbad] at this
  exact Bool.false_ne_true this

/-! ## Claim C7: arrow detection in detectStampType -/

/-- The keyword-only portion of `detectStampType` (departure keywords
checked before arrival keywords, default ARRIVAL). -/
def keywordDirection (text : List Char) : StampDir :=
  let normalizedText := normalizeText text
  if departureKeywords.any (fun k => strContains normalizedText k) then .DEPARTURE
  else if arrivalKeywords.any (fun k => strContains normalizedText k) then .ARRIVAL
  else .ARRIVAL

theorem arrowBlockScan_none (blocks : List (List Char)) :
    arrowBlockScan blocks = none := by
  induction blocks with
  | nil => rfl
  | cons b rest ih =>
    simp only [arrowBlockScan]
    have h1 : patLtDash (normalizeText b) = false :=
      any_eq_norm_false b '<' (by decide)
    have h2 : patDashGt (normalizeText b) = false :=
      any_eq_norm_false b '>' (by decide)
    have h3 : patBrRight (normalizeText b) = false :=
      any_eq_norm_false b '→' (by decide)
    have h4 : patBrDblRight (normalizeText b) = false :=
      any_eq_norm_false b '⇒' (by decide)
    have h5 : patBrLeft (normalizeText b) = false :=
      any_eq_norm_false b '←' (by decide)
    have h6 : patBrDblLeft (normalizeText b) = false :=
      any_eq_norm_false b '⇐' (by decide)
    rw [h1, h2, h3, h4, h5, h6]
    simpa using ih

theorem leftArrows_never_match (text : List Char) :
    leftArrowSymbols.any (fun a => strContains (normalizeText text) a) = false := by
  rw [List.any_eq_false]
  intro a ha
  simp only [leftArrowSymbols, List.mem_cons, List.not_mem_nil, or_false] at ha
  rcases ha with rfl | rfl | rfl | rfl
  · rw [strContains_norm_false text ("←".toList) '←' (by decide) (by decide)]
    exact Bool.false_ne_true
  · rw [strContains_norm_false text ("⇐".toList) '⇐' (by decide) (by decide)]
    exact Bool.false_ne_true
  · rw [strContains_norm_false text ("<-".toList) '<' (by decide) (by decide)]
    exact Bool.false_ne_true
  · rw [strContains_norm_false text ("<=".toList) '<' (by decide) (by decide)]
    exact Bool.false_ne_true

theorem rightArrows_never_match (text : List Char) :
    rightArrowSymbols.any (fun a => strContains (normalizeText text) a) = false := by
  rw [List.any_eq_false]
  intro a ha
  simp only [rightArrowSymbols, List.mem_cons, List.not_mem_nil, or_false] at ha
  rcases ha with rfl | rfl | rfl | rfl
  · rw [strContains_norm_false text ("→".toList) '→' (by decide) (by decide)]
    exact Bool.false_ne_true
  · rw [strContains_norm_false text ("⇒".toList) '⇒' (by decide) (by decide)]
    exact Bool.false_ne_true
  · rw [strContains_norm_false text ("->".toList) '>' (by decide) (by decide)]
    exact Bool.false_ne_true
  · rw [strContains_norm_false text ("=>".toList) '>' (by decide) (by decide)]
    exact Bool.false_ne_true

/-- Claim C7 counterexample: a context text containing the left-arrow glyph
`←` together with a departure keyword is classified DEPARTURE, not ARRIVAL:
`normalizeText` strips every arrow character, so arrow detection never
takes priority. -/
theorem detectStampType_arrow_counterexample :
    strContains "← DEPARTURE".toList "←".toList = true ∧
    detectStampType "← DEPARTURE".toList [] = .DEPARTURE ∧
    StampDir.DEPARTURE ≠ StampDir.ARRIVAL := by
  refine ⟨by decide, by decide, by decide⟩

/-- Claim C7 (amended): `normalizeText` removes every arrow glyph and every
`<`, `=`, `>` character, so neither the arrow-symbol scan nor the per-block
arrow-pattern scan of `detectStampType` can ever fire; the result always
equals the keyword-only classification (departure keywords before arrival
keywords, default ARRIVAL).  In particular an arrow in the raw context text
does not force ARRIVAL. -/
theorem detectStampType_eq_keywordDirection (text : List Char) (blocks : List (List Char)) :
    detectStampType text blocks = keywordDirection text := by
  simp only [detectStampType, keywordDirection]
  rw [leftArrows_never_match text, rightArrows_never_match text, arrowBlockScan_none blocks]
  simp

/-! ## Claim C4: standalone country-code detection -/

/-- Spec-side predicate: `code` occurs somewhere in `s` as a standalone
two-letter uppercase token bounded by start/whitespace/colon on both sides
(positions after the start). -/
def hasStandaloneCodeTail : List Char → List Char → Bool
  | [], _ => false
  | c :: tl, code =>
    (isCodeBoundary c && (codeAt tl == some code)) || hasStandaloneCodeTail tl code

/-- Spec-side predicate: `code` occurs somewhere in `s` as a standalone
two-letter uppercase token (including at the start of the string). -/
def hasStandaloneCode (s code : List Char) : Bool :=
  (codeAt s == some code) || hasStandaloneCodeTail s code

/-- Claim C4 counterexample: the normalized text `"XY HR"` contains `"HR"`
as a standalone token, but `detectCountry` examines only the first
standalone two-letter token (`"XY"`, not a known code) and falls through to
the default, returning `("India", 0.5)` instead of `("Croatia", 0.95)`. -/
theorem detectCountry_standalone_counterexample :
    hasStandaloneCode (normalizeText "XY HR".toList) "HR".toList = true ∧
    detectCountry "XY HR".toList = ("India".toList, 50) ∧
    (("India".toList, (50 : Confidence)) ≠ ("Croatia".toList, (95 : Confidence))) := by
  refine ⟨by decide, by decide, by decide⟩

/-- Claim C4 (amended): if the first standalone two-letter uppercase token
of the normalized text is `"HR"`, then `detectCountry` returns
`("Croatia", 0.95)`: the code rule is first priority, but only the first
standalone token is examined, so a standalone `"HR"` wins only when no
other standalone two-letter token precedes it. -/
theorem detectCountry_first_code_HR (text : List Char)
    (h : firstCodeMatch (normalizeText text) = some ("HR".toList)) :
    detectCountry text = ("Croatia".toList, 95) := by
  simp only [detectCountry]
  rw [h]
  rfl

theorem detectCountry_first_code_HR_witness :
    detectCountry "HR: 15.03.99".toList = ("Croatia".toList, 95) :=
  detectCountry_first_code_HR ("HR: 15.03.99".toList) (by decide)

/-! ## Claim C3: airport detection by identifying token -/

/-- Spec-side function stating the claim verbatim: the canonical airport
display name of the first table entry owning a matching identifying token,
upper-cased and suffixed with `" AIRPORT"` if absent. -/
def claimCanonicalAirport (blocks : List (List Char)) (country : List Char) :
    Option (List Char) :=
  match COUNTRY_AIRPORTS.find? (fun d => d.name == country) with
  | none => none
  | some cd =>
    let combined := joinWith [' '] (blocks.map normalizeText)
    match cd.airports.find? (fun a => a.2.any (fun t => strContains combined t)) with
    | some a => some (airportLabelOfToken a.1)
    | none => none

/-- Claim C3 counterexample: for Croatia with block text `"SPU"` (an
identifying token of the `"Split Airport"` entry), `detectAirport` returns
the matched token as `"SPU AIRPORT"` — not the canonical display name
`"SPLIT AIRPORT"` claimed by the specification. -/
theorem detectAirport_canonical_counterexample :
    detectAirport ["SPU".toList] "Croatia".toList = ("SPU AIRPORT".toList, 90) ∧
    claimCanonicalAirport ["SPU".toList] "Croatia".toList = some ("SPLIT AIRPORT".toList) ∧
    ("SPU AIRPORT".toList ≠ "SPLIT AIRPORT".toList) := by
  refine ⟨by decide, by decide, by decide⟩

/-- Data of the first table entry (Croatia), used to instantiate the
amended claim C3. -/
def croatiaData : CountryData := COUNTRY_AIRPORTS.getD 0 ⟨[], [], []⟩

/-- Claim C3 (amended): for every block list and country present in the
knowledge base, if the joined normalized block text contains an identifying
token of some airport of that country, `detectAirport` returns the *first
matching identifying token* of the first matching table entry, upper-cased
and suffixed with `" AIRPORT"` unless it already contains `"AIRPORT"`,
at confidence 0.9.  (For Croatia with `"SPLIT"` this coincides with the
canonical name upper-cased, `"SPLIT AIRPORT"`.) -/
theorem detectAirport_token_match (blocks : List (List Char)) (country : List Char)
    (cd : CountryData) (tok : List Char)
    (h1 : COUNTRY_AIRPORTS.find? (fun d => d.name == country) = some cd)
    (h2 : firstAirportTokenMatch cd.airports
      (joinWith [' '] (blocks.map normalizeText)) = some tok) :
    detectAirport blocks country = (airportLabelOfToken tok, 90) := by
  simp only [detectAirport, h1, h2]

theorem detectAirport_token_match_witness :
    detectAirport ["SPLIT".toList] "Croatia".toList = ("SPLIT AIRPORT".toList, 90) :=
  detectAirport_token_match ["SPLIT".toList] "Croatia".toList croatiaData
    ("SPLIT".toList) (by decide) (by decide)

/-! ## formatDate (passport.ts lines 598-639)

The source first tries eleven explicit `date-fns` `parse` formats against
the raw string (reference date `new Date()`, whose calendar year is the
`refYear` parameter below), then falls back to a regex extraction with an
unconditional `"20" + year` two-digit-year expansion. -/

def natOfDigits (l : List Char) : Nat :=
  l.foldl (fun a c => a * 10 + (c.toNat - 48)) 0

/-- Numeric token matching of `date-fns` (`parseNDigits`): consume one to `n`
leading digits, greedily. -/
def takeDigitsUpTo (n : Nat) (s : List Char) : Option (Nat × List Char) :=
  let ds := (s.takeWhile isDigitJS).take n
  if ds.isEmpty then none else some (natOfDigits ds, s.drop ds.length)

/-- Upper-cased three-letter month abbreviations (the `en-US` locale data
used by both `date-fns` `MMM` matching and `Date.parse`), with month
numbers. -/
def monthAbbrevTable : List (List Char × Nat) :=
  [("JAN".toList, 1), ("FEB".toList, 2), ("MAR".toList, 3), ("APR".toList, 4),
   ("MAY".toList, 5), ("JUN".toList, 6), ("JUL".toList, 7), ("AUG".toList, 8),
   ("SEP".toList, 9), ("OCT".toList, 10), ("NOV".toList, 11), ("DEC".toList, 12)]

def monthAbbrevIndex (u : List Char) : Option Nat :=
  (monthAbbrevTable.find? (fun p => p.1 == u)).map (fun p => p.2)

/-- Month token matching for `MMM`: case-insensitive three-letter month-name match at the
start of the remaining string. -/
def matchMonthAbbrev (s : List Char) : Option (Nat × List Char) :=
  match monthAbbrevIndex ((s.take 3).map toUpperJS) with
  | some m => some (m, s.drop 3)
  | none => none

/-- A `date-fns` format token: `dd`, `MM`, `yy`, `yyyy`, `MMM` or a literal
separator character. -/
inductive DTok where
  | dd
  | mm
  | yy
  | yyyy
  | mmm
  | lit (c : Char)

/-- The eleven formats of the `dateFormats` array, in source order. -/
def dateFnsFormats : List (List DTok) := [
  [.dd, .lit '.', .mm, .lit '.', .yy],
  [.dd, .lit '.', .mm, .lit '.', .yyyy],
  [.dd, .lit ' ', .mmm, .lit ' ', .yyyy],
  [.dd, .lit '-', .mm, .lit '-', .yy],
  [.dd, .lit '-', .mm, .lit '-', .yyyy],
  [.dd, .lit ' ', .mmm, .lit ' ', .yy],
  [.yyyy, .lit '-', .mm, .lit '-', .dd],
  [.yyyy, .lit '.', .mm, .lit '.', .dd],
  [.dd, .lit '-', .mmm, .lit '-', .yyyy],
  [.dd, .lit '-', .mmm, .lit '-', .yy],
  [.mm, .lit '.', .dd, .lit '.', .yyyy]]

/-- Run a token list over the string, accumulating day, month, raw year and
the two-digit-year flag; the string must be fully consumed up to trailing
whitespace (`date-fns` rejects leftover non-whitespace input). -/
def runToksGo : List DTok → List Char → Nat → Nat → Nat → Bool →
    Option (Nat × Nat × Nat × Bool)
  | [], rest, d, m, y, tw => if rest.all isWsJS then some (d, m, y, tw) else none
  | .dd :: ts, s, _, m, y, tw =>
    match takeDigitsUpTo 2 s with
    | some (v, rest) => runToksGo ts rest v m y tw
    | none => none
  | .mm :: ts, s, d, _, y, tw =>
    match takeDigitsUpTo 2 s with
    | some (v, rest) => runToksGo ts rest d v y tw
    | none => none
  | .yy :: ts, s, d, m, _, _ =>
    match takeDigitsUpTo 2 s with
    | some (v, rest) => runToksGo ts rest d m v true
    | none => none
  | .yyyy :: ts, s, d, m, _, _ =>
    match takeDigitsUpTo 4 s with
    | some (v, rest) => runToksGo ts rest d m v false
    | none => none
  | .mmm :: ts, s, d, _, y, tw =>
    match matchMonthAbbrev s with
    | some (v, rest) => runToksGo ts rest d v y tw
    | none => none
  | .lit c :: ts, s, d, m, y, tw =>
    match s with
    | x :: rest => if x == c then runToksGo ts rest d m y tw else none
    | [] => none

def isLeapYear (y : Nat) : Bool :=
  (y % 4 == 0 && y % 100 != 0) || (y % 400 == 0)

def daysInMonth (y m : Nat) : Nat :=
  if m == 2 then (if isLeapYear y then 29 else 28)
  else if m == 4 || m == 6 || m == 9 || m == 11 then 30
  else 31

/-- Model of the `date-fns` helper `normalizeTwoDigitYear`: map a two-digit year into the
hundred-year window ending fifty years after the reference year. -/
def normalizeTwoDigitYear (two cur : Nat) : Nat :=
  if cur ≤ 50 then (if two == 0 then 100 else two)
  else
    let rangeEnd := cur + 50
    let rangeEndCentury := (rangeEnd / 100) * 100
    if two ≥ rangeEnd % 100 then two + rangeEndCentury - 100
    else two + rangeEndCentury

/-- Validation and year resolution of `date-fns`: a non-two-digit year must be
positive, the month must be 1..12, and the day must fit the month of the
resolved year. -/
def finalizeDate (refYear : Nat) (r : Nat × Nat × Nat × Bool) :
    Option (Nat × Nat × Nat) :=
  let d := r.1
  let m := r.2.1
  let yr := r.2.2.1
  let tw := r.2.2.2
  let y := if tw then normalizeTwoDigitYear yr refYear else yr
  if (tw || decide (0 < yr)) && decide (1 ≤ m) && decide (m ≤ 12) &&
      decide (1 ≤ d) && decide (d ≤ daysInMonth y m) then
    some (y, m, d)
  else none

/-- The `for (const fmt of dateFormats)` loop: first format that parses to
a calendar-valid date wins. -/
def tryFormats (refYear : Nat) (s : List Char) : List (List DTok) →
    Option (Nat × Nat × Nat)
  | [] => none
  | f :: rest =>
    match runToksGo f s 0 0 0 false with
    | some raw =>
      match finalizeDate refYear raw with
      | some ymd => some ymd
      | none => tryFormats refYear s rest
    | none => tryFormats refYear s rest

def natStr (n : Nat) : List Char := (Nat.repr n).toList

def pad2 (n : Nat) : List Char := if n < 10 then '0' :: natStr n else natStr n

def pad4 (n : Nat) : List Char :=
  if n < 10 then '0' :: '0' :: '0' :: natStr n
  else if n < 100 then '0' :: '0' :: natStr n
  else if n < 1000 then '0' :: natStr n
  else natStr n

/-- Model of `format(date, 'dd/MM/yyyy')`. -/
def formatDMY (ymd : Nat × Nat × Nat) : List Char :=
  pad2 ymd.2.2 ++ '/' :: (pad2 ymd.2.1 ++ '/' :: pad4 ymd.1)

/-! ### The fallback date regex

Pattern: one or two digits, a separator (period, whitespace, slash or
hyphen), one or two digits or three word characters, a separator, then two
to four digits; three capture groups.

A specialised backtracking matcher: day alternatives (two digits, then
one) before the separator class, month alternatives (two digits, one
digit, then three word characters), year alternatives (four, three, then
two digits), scanning match positions left to right. -/

def takeExactDigits (n : Nat) (s : List Char) : Option (List Char × List Char) :=
  let ds := s.take n
  if ds.length == n && ds.all isDigitJS then some (ds, s.drop n) else none

def take3WordChars (s : List Char) : Option (List Char × List Char) :=
  let ds := s.take 3
  if ds.length == 3 && ds.all isWordJS then some (ds, s.drop 3) else none

/-- The separator class: period, whitespace, slash, hyphen. -/
def sepOk (c : Char) : Bool := (c == '.') || isWsJS c || (c == '/') || (c == '-')

def tryYearGroup (s : List Char) : Option (List Char) :=
  match takeExactDigits 4 s with
  | some (y, _) => some y
  | none =>
    match takeExactDigits 3 s with
    | some (y, _) => some y
    | none =>
      match takeExactDigits 2 s with
      | some (y, _) => some y
      | none => none

def trySepThenYear : List Char → Option (List Char)
  | c :: rest => if sepOk c then tryYearGroup rest else none
  | [] => none

def tryMonthThenYear (s : List Char) : Option (List Char × List Char) :=
  (match takeExactDigits 2 s with
   | some (m, r) => (trySepThenYear r).map (fun y => (m, y))
   | none => none) <|>
  (match takeExactDigits 1 s with
   | some (m, r) => (trySepThenYear r).map (fun y => (m, y))
   | none => none) <|>
  (match take3WordChars s with
   | some (m, r) => (trySepThenYear r).map (fun y => (m, y))
   | none => none)

def tryDateHere (s : List Char) : Option (List Char × List Char × List Char) :=
  (match takeExactDigits 2 s with
   | some (d, c :: r2) =>
     if sepOk c then (tryMonthThenYear r2).map (fun p => (d, p.1, p.2)) else none
   | _ => none) <|>
  (match takeExactDigits 1 s with
   | some (d, c :: r2) =>
     if sepOk c then (tryMonthThenYear r2).map (fun p => (d, p.1, p.2)) else none
   | _ => none)

/-- The first match of the date regex, with the three captured groups. -/
def firstDateMatch : List Char → Option (List Char × List Char × List Char)
  | [] => none
  | c :: tl =>
    match tryDateHere (c :: tl) with
    | some g => some g
    | none => firstDateMatch tl

/-! ### JavaScript `new Date(year, monthIndex, day)` rollover -/

/-- Day count of a proleptic Gregorian civil date (era-relative; used only
composed with its inverse below, so the epoch offset is irrelevant). -/
def daysFromCivil (y m d : Int) : Int :=
  let y2 := if m ≤ 2 then y - 1 else y
  let era := y2.fdiv 400
  let yoe := y2 - era * 400
  let mp := (m + 9).emod 12
  let doy := (153 * mp + 2).fdiv 5 + d - 1
  let doe := yoe * 365 + yoe.fdiv 4 - yoe.fdiv 100 + doy
  era * 146097 + doe

def civilFromDays (z : Int) : Int × Int × Int :=
  let era := z.fdiv 146097
  let doe := z - era * 146097
  let yoe := (doe - doe.fdiv 1460 + doe.fdiv 36524 - doe.fdiv 146096).fdiv 365
  let y := yoe + era * 400
  let doy := doe - (365 * yoe + yoe.fdiv 4 - yoe.fdiv 100)
  let mp := (5 * doy + 2).fdiv 153
  let d := doy - (153 * mp + 2).fdiv 5 + 1
  let m := if mp < 10 then mp + 3 else mp - 9
  (if m ≤ 2 then y + 1 else y, m, d)

/-- Normalisation performed by `new Date(y, monthIndex, day)`: excess months roll the
year, excess (or zero/negative) days roll the month. -/
def jsDateNormalize (y mIdx d : Int) : Int × Int × Int :=
  let ny := y + mIdx.fdiv 12
  let nm := mIdx.emod 12 + 1
  civilFromDays (daysFromCivil ny nm d)

/-- Model of `Number(monthStr)` when numeric, else the `Date.parse` month-name
resolution; `none` models `NaN` (which invalidates the constructed date). -/
def jsMonthNumber (m : List Char) : Option Int :=
  if m.all isDigitJS && !m.isEmpty then some (Int.ofNat (natOfDigits m))
  else (monthAbbrevIndex (m.map toUpperJS)).map Int.ofNat

def formatDMYInt (y m d : Int) : List Char :=
  pad2 d.toNat ++ '/' :: (pad2 m.toNat ++ '/' :: pad4 y.toNat)

/-- Function `formatDate` from the source.  `refYear` is the calendar year of the
`new Date()` reference used by the `date-fns` `parse` calls. -/
def formatDate (refYear : Nat) (s : List Char) : List Char :=
  if s.isEmpty then []
  else
    match tryFormats refYear s dateFnsFormats with
    | some ymd => formatDMY ymd
    | none =>
      match firstDateMatch s with
      | none => []
      | some (dayS, monS, yearS) =>
        match jsMonthNumber monS with
        | none => []
        | some mon =>
          let yearNum : Int :=
            Int.ofNat (natOfDigits (if yearS.length == 2 then '2' :: '0' :: yearS else yearS))
          let yearAdj : Int := if 0 ≤ yearNum ∧ yearNum ≤ 99 then yearNum + 1900 else yearNum
          let ymd := jsDateNormalize yearAdj (mon - 1) (Int.ofNat (natOfDigits dayS))
          formatDMYInt ymd.1 ymd.2.1 ymd.2.2

/-! ## Claim C1: formatDate on "15.03.99" -/

theorem normalizeTwoDigitYear_99 (refYear : Nat) (h1 : 1950 ≤ refYear)
    (h2 : refYear ≤ 2049) : normalizeTwoDigitYear 99 refYear = 1999 := by
  unfold normalizeTwoDigitYear
  rw [if_neg (by omega)]
  rw [if_pos (by omega)]
  omega

theorem finalizeDate_99 (refYear : Nat) (h1 : 1950 ≤ refYear) (h2 : refYear ≤ 2049) :
    finalizeDate refYear (15, 3, 99, true) = some (1999, 3, 15) := by
  simp only [finalizeDate]
  rw [normalizeTwoDigitYear_99 refYear h1 h2]
  decide

theorem tryFormats_15_03_99 (refYear : Nat) (h1 : 1950 ≤ refYear) (h2 : refYear ≤ 2049) :
    tryFormats refYear ("15.03.99".toList) dateFnsFormats = some (1999, 3, 15) := by
  have hrun : runToksGo [DTok.dd, .lit '.', .mm, .lit '.', .yy] ("15.03.99".toList) 0 0 0 false
      = some (15, 3, 99, true) := by decide
  unfold dateFnsFormats
  unfold tryFormats
  rw [hrun]
  simp only [finalizeDate_99 refYear h1 h2]

/-- Claim C1 counterexample: with the reference year 2026 (any
present-day run), `formatDate "15.03.99"` returns `"15/03/1999"`, not the
claimed `"15/03/2099"`: the first `date-fns` format `dd.MM.yy` already
parses the string, and `date-fns` resolves the two-digit year relative to
the current year; the unconditional `"20"` prefix lives only in the regex
fallback, which is not reached for this input. -/
theorem formatDate_two_digit_counterexample :
    formatDate 2026 ("15.03.99".toList) = "15/03/1999".toList ∧
    ("15/03/1999".toList ≠ "15/03/2099".toList) := by
  refine ⟨by decide, by decide⟩

/-- Claim C1 (amended): for every reference year between 1950 and 2049
(the calendar year of `new Date()` at run time), `formatDate "15.03.99"`
returns `"15/03/1999"`: the `dd.MM.yy` `date-fns` pattern wins and maps
`99` into the hundred-year window around the reference year; the
unconditional `"20" + yy` expansion applies only in the regex fallback,
which this input never reaches. -/
theorem formatDate_15_03_99 (refYear : Nat) (h1 : 1950 ≤ refYear) (h2 : refYear ≤ 2049) :
    formatDate refYear ("15.03.99".toList) = "15/03/1999".toList := by
  simp only [formatDate]
  rw [tryFormats_15_03_99 refYear h1 h2]
  decide

theorem formatDate_15_03_99_witness :
    formatDate 2025 ("15.03.99".toList) = "15/03/1999".toList :=
  formatDate_15_03_99 2025 (by decide) (by decide)

/-! ## parseStamp (passport.ts lines 641-679) -/

/-- Model of `text.split` at newlines. -/
def splitNL : List Char → List (List Char)
  | [] => [[]]
  | c :: rest =>
    match splitNL rest with
    | h :: t => if c == '\n' then [] :: h :: t else (c :: h) :: t
    | [] => if c == '\n' then [] :: [[]] else [[c]]

/-- The block list: `text.split` at newlines, keeping blocks whose trim is non-empty. -/
def toBlocks (text : List Char) : List (List Char) :=
  (splitNL text).filter (fun b => !(trimJS b).isEmpty)

/-- One attempt of the literal pattern `/DD.MM.YY/` (the dots match any
character except a line terminator). -/
def notLineTerm (c : Char) : Bool :=
  !((c == '\n') || (c == '\r') || (c.toNat == 8232) || (c.toNat == 8233))

def ddmmyyLiteralAt : List Char → Bool
  | 'D' :: 'D' :: a :: 'M' :: 'M' :: b :: 'Y' :: 'Y' :: _ => notLineTerm a && notLineTerm b
  | _ => false

def hasDDMMYYLiteral : List Char → Bool
  | [] => false
  | c :: tl => ddmmyyLiteralAt (c :: tl) || hasDDMMYYLiteral tl

/-- Test `block.match(dateRegex) || block.match(dateRegex1)`. -/
def isDateBlock (b : List Char) : Bool :=
  (firstDateMatch b).isSome || hasDDMMYYLiteral b

/-- The persisted candidate shape (the `isManualEntry` flag is only set by
`createEmptyEntry`, never by `parseStamp`, and is omitted). -/
structure PassportEntry where
  Sl_no : List Char
  Country : List Char
  Airport_Name_with_location : List Char
  Arrival_Departure : StampDir
  Date : List Char
  Description : List Char
  confidence : Confidence
deriving DecidableEq, Repr

/-- The description window of the source loop:
`for (let j = Math.max(0, i - 3); j < Math.min(blocks.length, i + 3); j++)`
(natural subtraction makes `i - 3` the clamped lower bound). -/
def windowSlice (blocks : List (List Char)) (i : Nat) : List (List Char) :=
  (blocks.drop (i - 3)).take (min blocks.length (i + 3) - (i - 3))

/-- The entry pushed for the `k`-th matching block index `i` (0-based `k`;
`Sl_no` is the 1-based running counter). -/
def mkStampEntry (refYear : Nat) (text : List Char) (blocks : List (List Char))
    (k i : Nat) : PassportEntry :=
  let countryResult := detectCountry text
  let airportResult := detectAirport blocks countryResult.1
  let description := joinWith ['\n'] (windowSlice blocks i)
  { Sl_no := natStr (k + 1),
    Country := countryResult.1,
    Airport_Name_with_location := airportResult.1,
    Arrival_Departure := detectStampType description blocks,
    Date := formatDate refYear (blocks.getD i []),
    Description := description,
    confidence := min countryResult.2 airportResult.2 }

/-- Indices of blocks matching a date-like pattern, in order. -/
def stampMatches (blocks : List (List Char)) : List Nat :=
  (List.range blocks.length).filter (fun i => isDateBlock (blocks.getD i []))

/-- Function `parseStamp`: one candidate per date-matching block, in block order
(the OCR-annotation unwrapping `textAnnotations[0].description` is caller
glue and is not modelled). -/
def parseStamp (refYear : Nat) (text : List Char) : List PassportEntry :=
  let blocks := toBlocks text
  (stampMatches blocks).enum.map (fun p => mkStampEntry refYear text blocks p.1 p.2)

theorem drop_take_eq_range' {α : Type} (l : List α) (d : α) (a c : Nat)
    (h : a + c ≤ l.length) :
    (l.drop a).take c = (List.range' a c).map (fun j => l.getD j d) := by
  apply List.ext_get?
  intro n
  by_cases hn : n < c
  · rw [List.get?_take hn, List.get?_drop, List.get?_map, List.get?_range' _ _ hn]
    simp only [Option.map_some', one_mul]
    rw [List.getD_eq_get?]
    cases hx : l.get? (a + n) with
    | none =>
      rw [List.get?_eq_none] at hx
      omega
    | some x => rfl
  · have h1 : ((l.drop a).take c).get? n = none := by
      rw [List.get?_eq_none]
      calc ((l.drop a).take c).length ≤ c := by
            rw [List.length_take]; omega
        _ ≤ n := by omega
    have h2 : ((List.range' a c).map (fun j => l.getD j d)).get? n = none := by
      rw [List.get?_eq_none]
      rw [List.length_map, List.length_range']
      omega
    rw [h1, h2]

/-! ## Claim C2: the description window of parseStamp -/

/-- Claim C2 counterexample: on a page of seven blocks whose fourth block
(index 3) is the only date-like line, the emitted description covers block
indices 0 through 5 — three blocks before and only *two* after the match
(the loop bound `j < Math.min(blocks.length, i + 3)` is exclusive) — not
the claimed symmetric window through index `i + 3`. -/
theorem parseStamp_window_counterexample :
    isDateBlock ((toBlocks ("A\nB\nC\n1.2.33\nD\nE\nF".toList)).getD 3 []) = true ∧
    (parseStamp 2026 ("A\nB\nC\n1.2.33\nD\nE\nF".toList)).map (fun e => e.Description) =
      ["A\nB\nC\n1.2.33\nD\nE".toList] ∧
    ("A\nB\nC\n1.2.33\nD\nE".toList ≠
      joinWith ['\n'] ((List.range' 0 7).map
        (fun j => (toBlocks ("A\nB\nC\n1.2.33\nD\nE\nF".toList)).getD j []))) := by
  refine ⟨by decide, by decide, by decide⟩

/-- Claim C2 (amended): for every page and every block index `i` matching a
date-like pattern, the emitted candidate's description is the blocks with
indices from `i - 3` (clipped at 0) up to but *excluding*
`min(length, i + 3)` — a window of three blocks before and two after the
matching block — joined in order with newlines; and conversely every
emitted candidate arises from such a matching index. -/
theorem parseStamp_window (refYear : Nat) (text : List Char) :
    (∀ e ∈ parseStamp refYear text, ∃ i,
       i < (toBlocks text).length ∧
       isDateBlock ((toBlocks text).getD i []) = true ∧
       e.Description = joinWith ['\n']
         ((List.range' (i - 3) (min (toBlocks text).length (i + 3) - (i - 3))).map
           (fun j => (toBlocks text).getD j []))) ∧
    (∀ i, i < (toBlocks text).length → isDateBlock ((toBlocks text).getD i []) = true →
       ∃ e ∈ parseStamp refYear text,
         e.Description = joinWith ['\n']
           ((List.range' (i - 3) (min (toBlocks text).length (i + 3) - (i - 3))).map
             (fun j => (toBlocks text).getD j []))) := by
  constructor
  · intro e he
    simp only [parseStamp] at he
    rw [List.mem_map] at he
    obtain ⟨p, hp, hF⟩ := he
    rw [List.mem_enum_iff_get?] at hp
    have hmem : p.2 ∈ stampMatches (toBlocks text) := List.get?_mem hp
    unfold stampMatches at hmem
    rw [List.mem_filter] at hmem
    obtain ⟨hr, hdb⟩ := hmem
    rw [List.mem_range] at hr
    refine ⟨p.2, hr, hdb, ?_⟩
    rw [← hF]
    simp only [mkStampEntry]
    unfold windowSlice
    rw [drop_take_eq_range' _ [] _ _ (by omega)]
  · intro i hi hdb
    have hmem : i ∈ stampMatches (toBlocks text) := by
      unfold stampMatches
      rw [List.mem_filter, List.mem_range]
      exact ⟨hi, by simpa using hdb⟩
    obtain ⟨k, hk⟩ := List.get?_of_mem hmem
    refine ⟨mkStampEntry refYear text (toBlocks text) k i, ?_, ?_⟩
    · simp only [parseStamp]
      rw [List.mem_map]
      exact ⟨(k, i), List.mem_enum_iff_get?.mpr (by simpa using hk), rfl⟩
    · simp only [mkStampEntry]
      unfold windowSlice
      rw [drop_take_eq_range' _ [] _ _ (by omega)]

theorem parseStamp_window_witness :
    ∃ e ∈ parseStamp 2026 ("P\n07.05.21\nQ".toList),
      e.Description = joinWith ['\n']
        ((List.range' 0 3).map
          (fun j => (toBlocks ("P\n07.05.21\nQ".toList)).getD j [])) := by
  have h := (parseStamp_window 2026 ("P\n07.05.21\nQ".toList)).2 1 (by decide) (by decide)
  simpa using h

/-! ## GeocodingService (passport.ts lines 784-945)

The service state and its transitions are modelled explicitly.  Caches and
the in-flight map are association lists (JavaScript `Map` with insertion
order); coordinates abstract the parsed `parseFloat` values of the upstream
response.  Each `async` step between two `await` points runs atomically on
the JavaScript event loop; in particular the check-and-register block of
`geocodeAirport` after `checkCache` resolves contains no `await`, which is
what the atomic `geocodeAirportStep` below mirrors. -/

structure GeocodingResult where
  lat : Int
  lng : Int
deriving DecidableEq, Repr

structure GeoState where
  memoryCache : List (List Char × GeocodingResult)
  redisCache : List (List Char × GeocodingResult)
  pendingRequests : List (List Char × List Nat)
  requestQueue : List (List Char)
deriving DecidableEq, Repr

/-- Method `checkCache`: memory tier first; a durable (Redis) hit is promoted into
the memory tier. -/
def checkCacheStep (key : List Char) (st : GeoState) :
    Option GeocodingResult × GeoState :=
  match st.memoryCache.lookup key with
  | some r => (some r, st)
  | none =>
    match st.redisCache.lookup key with
    | some r => (some r, { st with memoryCache := (key, r) :: st.memoryCache })
    | none => (none, st)

inductive ResolveOutcome where
  | cached (r : GeocodingResult)
  | waiting
deriving DecidableEq, Repr

def updateWaiters (l : List (List Char × List Nat)) (k : List Char) (caller : Nat) :
    List (List Char × List Nat) :=
  l.map (fun p => if p.1 == k then (p.1, p.2 ++ [caller]) else p)

/-- Method `geocodeAirport` up to the point where the caller either gets a cached
value or is registered as a waiter: on a cache miss, either join the
existing in-flight entry or create one and enqueue the name. -/
def geocodeAirportStep (caller : Nat) (name : List Char) (st : GeoState) :
    GeoState × ResolveOutcome :=
  match checkCacheStep name st with
  | (some r, st1) => (st1, .cached r)
  | (none, st1) =>
    match st1.pendingRequests.lookup name with
    | some _ =>
      ({ st1 with pendingRequests := updateWaiters st1.pendingRequests name caller },
       .waiting)
    | none =>
      ({ st1 with
          pendingRequests := st1.pendingRequests ++ [(name, [caller])],
          requestQueue := st1.requestQueue ++ [name] },
       .waiting)

/-- One drain loop of `processQueue`, parameterised by the upstream lookup
(`geocodeWithRetry`, abstracted to its result): repeatedly remove a batch
of up to five names, issue one lookup per name, release every waiter of
each name with that name's result, and clear its in-flight entry.  Returns
the final state, the list of names looked up upstream (in call order), and
the deliveries `(waiter, result)` (in release order).  The fuel bounds the
number of iterations; one unit per non-empty batch suffices. -/
def processQueueRun (f : List Char → Option GeocodingResult) :
    Nat → GeoState → GeoState × List (List Char) × List (Nat × Option GeocodingResult)
  | 0, st => (st, [], [])
  | fuel + 1, st =>
    if st.requestQueue.isEmpty then (st, [], [])
    else
      let batch := st.requestQueue.take 5
      let rest := st.requestQueue.drop 5
      let delivered := (batch.map (fun n =>
        match st.pendingRequests.lookup n with
        | some ws => ws.map (fun w => (w, f n))
        | none => [])).join
      let newPending := st.pendingRequests.filter (fun p => !(batch.contains p.1))
      let st2 := { st with requestQueue := rest, pendingRequests := newPending }
      let next := processQueueRun f fuel st2
      (next.1, batch ++ next.2.1, delivered ++ next.2.2)

def emptyGeoState : GeoState := ⟨[], [], [], []⟩

/-- Claim C5: two concurrent `resolve` calls for the same uncached airport
name — the first creates the in-flight entry and enqueues the name once;
the second merely registers as an additional waiter; the drain loop then
issues exactly one upstream lookup for the name and releases both waiters
with the same result. -/
theorem geocode_dedup (f : List Char → Option GeocodingResult) (name : List Char) :
    (geocodeAirportStep 0 name emptyGeoState).2 = .waiting ∧
    (geocodeAirportStep 1 name (geocodeAirportStep 0 name emptyGeoState).1).2 = .waiting ∧
    (let st2 := (geocodeAirportStep 1 name (geocodeAirportStep 0 name emptyGeoState).1).1
     let run := processQueueRun f (st2.requestQueue.length + 1) st2
     run.2.1 = [name] ∧ run.2.2 = [(0, f name), (1, f name)] ∧
       run.1.pendingRequests = [] ∧ run.1.requestQueue = []) := by
  simp only [geocodeAirportStep, checkCacheStep, emptyGeoState, updateWaiters,
    List.lookup, processQueueRun]
  simp [processQueueRun, List.take, List.drop, List.join]

/-! ## geocodeWithRetry (passport.ts lines 847-884) -/

/-- One upstream HTTP outcome: a successful response with its (already
parsed) result list, or a failure with an HTTP status code. -/
inductive UpstreamResp where
  | ok (data : List GeocodingResult)
  | err (status : Nat)
deriving DecidableEq, Repr

/-- The observable behaviour of one `geocodeWithRetry` call: the returned
value, the backoff waits performed (in ms, in order), and the writes to
the memory and durable cache tiers (`setCache` writes both; the durable
write applies when Redis is configured). -/
structure RetryRun where
  result : Option GeocodingResult
  waits : List Nat
  memWrites : List (List Char × GeocodingResult)
  redisWrites : List (List Char × GeocodingResult)
deriving DecidableEq, Repr

/-- The attempt loop `for (let attempt = 0; attempt < retries; attempt++)`:
a success with data caches and returns the first entry; a success with no
data returns null; a 429 before the last attempt waits `delay` and doubles
it; any other failure (or a 429 on the last attempt) returns null. -/
def geocodeWithRetryGo (name : List Char) (resp : Nat → UpstreamResp) (retries : Nat) :
    Nat → Nat → Nat → RetryRun
  | 0, _, _ => ⟨none, [], [], []⟩
  | remaining + 1, attempt, delay =>
    match resp attempt with
    | .ok data =>
      match data.head? with
      | some first => ⟨some first, [], [(name, first)], [(name, first)]⟩
      | none => ⟨none, [], [], []⟩
    | .err status =>
      if status == 429 && decide (attempt < retries - 1) then
        let next := geocodeWithRetryGo name resp retries remaining (attempt + 1) (delay * 2)
        ⟨next.result, delay :: next.waits, next.memWrites, next.redisWrites⟩
      else ⟨none, [], [], []⟩

/-- Method `geocodeWithRetry` with the default parameters `retries = 3`,
`initialDelay = 1000`. -/
def geocodeWithRetry (name : List Char) (resp : Nat → UpstreamResp) : RetryRun :=
  geocodeWithRetryGo name resp 3 3 0 1000

/-- Claim C6: `geocodeWithRetry` is total (never raises); on 429 it retries
up to 3 total attempts waiting 1000ms then 2000ms; a success with at least
one result (in particular after two 429s) is written to both cache tiers
and returned; a success with zero results, a non-429 failure, or three
429s in a row all return null. -/
theorem geocodeWithRetry_claim (name : List Char) (resp : Nat → UpstreamResp) :
    (∀ r rest, resp 0 = .err 429 → resp 1 = .err 429 → resp 2 = .ok (r :: rest) →
      geocodeWithRetry name resp =
        ⟨some r, [1000, 2000], [(name, r)], [(name, r)]⟩) ∧
    (resp 0 = .ok [] → geocodeWithRetry name resp = ⟨none, [], [], []⟩) ∧
    (∀ s, s ≠ 429 → resp 0 = .err s → geocodeWithRetry name resp = ⟨none, [], [], []⟩) ∧
    (resp 0 = .err 429 → resp 1 = .err 429 → resp 2 = .err 429 →
      geocodeWithRetry name resp = ⟨none, [1000, 2000], [], []⟩) := by
  refine ⟨?_, ?_, ?_, ?_⟩
  · intro r rest h0 h1 h2
    simp only [geocodeWithRetry, geocodeWithRetryGo, h0, h1, h2]
    simp
  · intro h0
    simp only [geocodeWithRetry, geocodeWithRetryGo, h0]
    simp
  · intro s hs h0
    simp only [geocodeWithRetry, geocodeWithRetryGo, h0]
    have : (s == 429) = false := by
      rw [beq_eq_false_iff_ne]
      exact hs
    simp [this]
  · intro h0 h1 h2
    simp only [geocodeWithRetry, geocodeWithRetryGo, h0, h1, h2]
    simp

theorem geocodeWithRetry_claim_witness :
    geocodeWithRetry ("Zurich Airport".toList)
      (fun n => if n < 2 then .err 429 else .ok [⟨47, 8⟩]) =
      ⟨some ⟨47, 8⟩, [1000, 2000],
       [("Zurich Airport".toList, ⟨47, 8⟩)], [("Zurich Airport".toList, ⟨47, 8⟩)]⟩ :=
  (geocodeWithRetry_claim ("Zurich Airport".toList)
    (fun n => if n < 2 then .err 429 else .ok [⟨47, 8⟩])).1
    ⟨47, 8⟩ [] (by decide) (by decide) (by decide)

/-! ## cropAndSaveStamp and the upload pipeline (later-revision controller,
lines 668-762)

Pixel coordinates and image dimensions are modelled as rationals (the 15%
padding is exact there); the image codec, file system and OCR collaborators
are external, so `cropAndSaveStamp` is modelled down to its return value:
the relative reference string on success, `null` on invalid geometry. -/

def listMin : List Rat → Rat
  | [] => 0
  | x :: xs => xs.foldl min x

def listMax : List Rat → Rat
  | [] => 0
  | x :: xs => xs.foldl max x

/-- The padded, clamped crop rectangle `(minX, maxX, minY, maxY)`:
axis-aligned bounds of the vertices (`v.x || 0` null-coalescing), expanded
by 15% of the width/height on each side, clamped to `[0, imageWidth]` and
`[0, imageHeight]`. -/
def paddedClampedRect (imgW imgH : Rat) (verts : List (Option Rat × Option Rat)) :
    Rat × Rat × Rat × Rat :=
  let xs := verts.map (fun v => v.1.getD 0)
  let ys := verts.map (fun v => v.2.getD 0)
  let minX0 := listMin xs
  let maxX0 := listMax xs
  let minY0 := listMin ys
  let maxY0 := listMax ys
  let paddingX := (maxX0 - minX0) * (15 / 100)
  let paddingY := (maxY0 - minY0) * (15 / 100)
  (max 0 (minX0 - paddingX), min imgW (maxX0 + paddingX),
   max 0 (minY0 - paddingY), min imgH (maxY0 + paddingY))

/-- Function `cropAndSaveStamp`: `null` unless the bounding polygon has exactly four
vertices and the padded, clamped rectangle is non-degenerate; on success
the relative stamp-image reference. -/
def cropAndSaveStamp (imgW imgH : Rat) (verts : List (Option Rat × Option Rat))
    (stampId : List Char) : Option (List Char) :=
  if verts.length ≠ 4 then none
  else
    let r := paddedClampedRect imgW imgH verts
    if r.1 ≥ r.2.1 ∨ r.2.2.1 ≥ r.2.2.2 then none
    else some ("/uploads/stamps/".toList ++ stampId ++ ".jpg".toList)

/-- The data `uploadPassportPage` carries per parsed stamp. -/
structure StampRecord where
  entry : PassportEntry
  stampId : List Char
deriving DecidableEq, Repr

/-- The response shape: the candidate fields plus the stamp-image
reference (`StampImage: stampImagePath || ''`). -/
structure SavedEntry where
  entry : PassportEntry
  StampImage : List Char
deriving DecidableEq, Repr

/-- The `for (const stampData of parsedStamps)` loop of
`uploadPassportPage`: every parsed stamp yields one response record; a
failed crop (`null`) becomes the empty stamp-image reference. -/
def attachStampImages (stamps : List StampRecord)
    (cropResult : StampRecord → Option (List Char)) : List SavedEntry :=
  stamps.map (fun s => ⟨s.entry, (cropResult s).getD []⟩)

/-- Claim C8: `cropAndSaveStamp` signals invalid geometry by returning
`null` when the polygon does not have exactly four vertices, and when the
padded, clamped rectangle is degenerate (zero or negative width or
height); in both cases the upload pipeline still emits the candidate
record, with an empty stamp-image reference. -/
theorem cropAndSaveStamp_invalid_geometry :
    (∀ (imgW imgH : Rat) verts stampId, verts.length ≠ 4 →
       cropAndSaveStamp imgW imgH verts stampId = none) ∧
    (∀ (imgW imgH : Rat) verts stampId,
       ((paddedClampedRect imgW imgH verts).1 ≥ (paddedClampedRect imgW imgH verts).2.1 ∨
        (paddedClampedRect imgW imgH verts).2.2.1 ≥ (paddedClampedRect imgW imgH verts).2.2.2) →
       cropAndSaveStamp imgW imgH verts stampId = none) ∧
    (∀ stamps cropResult,
       (attachStampImages stamps cropResult).length = stamps.length ∧
       (∀ k s, stamps.get? k = some s → cropResult s = none →
          (attachStampImages stamps cropResult).get? k = some ⟨s.entry, []⟩)) := by
  refine ⟨?_, ?_, ?_⟩
  · intro imgW imgH verts stampId h
    simp only [cropAndSaveStamp]
    rw [if_pos h]
  · intro imgW imgH verts stampId h
    simp only [cropAndSaveStamp]
    by_cases h4 : verts.length ≠ 4
    · rw [if_pos h4]
    · rw [if_neg h4, if_pos h]
  · intro stamps cropResult
    constructor
    · simp [attachStampImages]
    · intro k s hk hc
      simp only [attachStampImages]
      rw [List.get?_map, hk]
      simp [hc]

theorem cropAndSaveStamp_invalid_geometry_witness :
    cropAndSaveStamp 100 100 [(some 1, some 1)] ("abc".toList) = none ∧
    cropAndSaveStamp 100 100
      [(some 5, some 5), (some 5, some 5), (some 5, some 5), (some 5, some 5)]
      ("abc".toList) = none ∧
    (attachStampImages [⟨⟨[], [], [], .ARRIVAL, [], [], 0⟩, "id1".toList⟩]
      (fun _ => none)).get? 0 =
      some ⟨⟨[], [], [], .ARRIVAL, [], [], 0⟩, []⟩ := by
  refine ⟨?_, ?_, ?_⟩
  · exact cropAndSaveStamp_invalid_geometry.1 100 100 [(some 1, some 1)] ("abc".toList)
      (by decide)
  · refine cropAndSaveStamp_invalid_geometry.2.1 100 100 _ ("abc".toList) ?_
    simp only [paddedClampedRect, listMin, listMax]
    norm_num
  · exact (cropAndSaveStamp_invalid_geometry.2.2
      [⟨⟨[], [], [], .ARRIVAL, [], [], 0⟩, "id1".toList⟩] (fun _ => none)).2 0 _ rfl rfl
